import Mathlib

/-!
Verification of the openclaw sandbox provisioning subsystem.

Part A models the pure configuration resolvers of sandbox/config.ts.
The implementation file itself is absent from the excerpt (only its vitest
suite is present), so the resolver definitions are modelled from the spec
(sections 4.1 to 4.3) and validated against the test vectors of the suite.

Part B embeds the runtime bootstrapper shell script (virtual display,
browser process, debug-port proxy, optional VNC/noVNC stack).
-/

namespace OpenClaw

/-- Sandbox isolation scope: shared, per-agent or per-session. -/
inductive SandboxScope where
  | shared
  | agent
  | session
deriving DecidableEq

/-- Left-biased choice on options: the first defined value wins.
This is the per-field override combinator of the resolvers. -/
def orO {α : Type} : Option α → Option α → Option α
  | some v, _ => some v
  | none, b => b

/-- Lookup in a string-keyed association list (first binding wins). -/
def lookupKV {β : Type} (k : String) : List (String × β) → Option β
  | [] => none
  | p :: rest => if k = p.1 then some p.2 else lookupKV k rest

/-- Modelled from the spec: shallow union of two string-keyed maps in which
the more specific layer wins on key collision and the key set is the union
of both key sets (spec 4.2); the missing code is resolveSandboxDockerConfig
of sandbox/config.ts. -/
def mergeMaps {β : Type} (g s : List (String × β)) : List (String × β) :=
  g.filter (fun p => (lookupKV p.1 s).isNone) ++ s

/-- Modelled from the spec: map-field merge in which a field absent from both
layers stays absent, otherwise the layers are shallow-unioned (spec 4.2). -/
def mergeOptMap {β : Type} :
    Option (List (String × β)) → Option (List (String × β)) →
    Option (List (String × β))
  | none, none => none
  | g, s => some (mergeMaps (g.getD []) (s.getD []))

/-- Modelled from the spec: list-field merge, concatenation of global then
specific, absent when both layers omit it (spec 4.2). -/
def mergeOptList {β : Type} : Option (List β) → Option (List β) → Option (List β)
  | none, none => none
  | g, s => some (g.getD [] ++ s.getD [])

/-- Value of a ulimit entry: either a soft/hard pair or a single number. -/
inductive UlimitValue where
  | pair (soft hard : Int)
  | single (value : Int)
deriving DecidableEq

/-- Docker sandbox configuration layer: every field optional, absence being
distinct from an empty collection. -/
structure DockerSandboxConfig where
  image : Option String
  env : Option (List (String × String))
  ulimits : Option (List (String × UlimitValue))
  binds : Option (List String)
  secretMounts : Option (List (String × String))
deriving DecidableEq

/-- Modelled from the spec: resolveSandboxDockerConfig of sandbox/config.ts
(spec 4.2). Shared scope returns the global layer verbatim; agent and session
scope resolve scalars by specific-first override, maps by shallow union with
the specific layer winning, and the binds list by concatenation. -/
def resolveSandboxDockerConfig (scope : SandboxScope)
    (globalDocker agentDocker : DockerSandboxConfig) : DockerSandboxConfig :=
  match scope with
  | .shared => globalDocker
  | _ =>
    { image := orO agentDocker.image globalDocker.image
      env := mergeOptMap globalDocker.env agentDocker.env
      ulimits := mergeOptMap globalDocker.ulimits agentDocker.ulimits
      binds := mergeOptList globalDocker.binds agentDocker.binds
      secretMounts := mergeOptMap globalDocker.secretMounts agentDocker.secretMounts }

/-- Browser sandbox configuration layer: every field optional. -/
structure BrowserSandboxConfig where
  enabled : Option Bool
  headless : Option Bool
  enableNoVnc : Option Bool
  cdpPort : Option Nat
  vncPort : Option Nat
  noVncPort : Option Nat
  cdpSourceRange : Option String
  noVncPassword : Option String
  screenResolution : Option String
  allowNoSandboxFlag : Option Bool
deriving DecidableEq

/-- Modelled from the spec: resolveSandboxBrowserConfig of sandbox/config.ts
(spec 4.3). Shared scope returns the global layer wholesale; otherwise each
field independently prefers the specific layer when defined. -/
def resolveSandboxBrowserConfig (scope : SandboxScope)
    (globalBrowser agentBrowser : BrowserSandboxConfig) : BrowserSandboxConfig :=
  match scope with
  | .shared => globalBrowser
  | _ =>
    { enabled := orO agentBrowser.enabled globalBrowser.enabled
      headless := orO agentBrowser.headless globalBrowser.headless
      enableNoVnc := orO agentBrowser.enableNoVnc globalBrowser.enableNoVnc
      cdpPort := orO agentBrowser.cdpPort globalBrowser.cdpPort
      vncPort := orO agentBrowser.vncPort globalBrowser.vncPort
      noVncPort := orO agentBrowser.noVncPort globalBrowser.noVncPort
      cdpSourceRange := orO agentBrowser.cdpSourceRange globalBrowser.cdpSourceRange
      noVncPassword := orO agentBrowser.noVncPassword globalBrowser.noVncPassword
      screenResolution := orO agentBrowser.screenResolution globalBrowser.screenResolution
      allowNoSandboxFlag := orO agentBrowser.allowNoSandboxFlag globalBrowser.allowNoSandboxFlag }

/-- Prune (garbage-collection) configuration layer: every field optional. -/
structure PruneConfig where
  idleHours : Option Int
  maxAgeDays : Option Int
deriving DecidableEq

/-- Modelled from the spec: resolveSandboxPruneConfig of sandbox/config.ts
(spec 4.3). Shared scope returns the global layer wholesale; otherwise
idleHours and maxAgeDays are resolved independently, specific layer first. -/
def resolveSandboxPruneConfig (scope : SandboxScope)
    (globalPrune agentPrune : PruneConfig) : PruneConfig :=
  match scope with
  | .shared => globalPrune
  | _ =>
    { idleHours := orO agentPrune.idleHours globalPrune.idleHours
      maxAgeDays := orO agentPrune.maxAgeDays globalPrune.maxAgeDays }

/-- Caller intent from which the sandbox scope is derived. -/
structure SandboxScopeOptions where
  perSession : Option Bool
  scope : Option SandboxScope
deriving DecidableEq

/-- Modelled from the spec: resolveSandboxScope of sandbox/config.ts
(spec 4.1). An explicit scope always wins; otherwise perSession true gives
session, perSession false gives shared, absent perSession gives agent. -/
def resolveSandboxScope (o : SandboxScopeOptions) : SandboxScope :=
  match o.scope with
  | some s => s
  | none =>
    match o.perSession with
    | some true => .session
    | some false => .shared
    | none => .agent

/-- Lookup through an optional map; an absent map holds no keys. -/
def optLookup {β : Type} (o : Option (List (String × β))) (k : String) : Option β :=
  match o with
  | none => none
  | some m => lookupKV k m

theorem orO_none_right {α : Type} (a : Option α) : orO a none = a := by
  cases a <;> rfl

theorem lookupKV_append {β : Type} (k : String) (l₁ l₂ : List (String × β)) :
    lookupKV k (l₁ ++ l₂) = orO (lookupKV k l₁) (lookupKV k l₂) := by
  induction l₁ with
  | nil => simp [lookupKV, orO]
  | cons p rest ih =>
    by_cases h : k = p.1
    · simp [lookupKV, h, orO]
    · simp [lookupKV, h, ih]

theorem lookupKV_mergeMaps {β : Type} (k : String) (g s : List (String × β)) :
    lookupKV k (mergeMaps g s) = orO (lookupKV k s) (lookupKV k g) := by
  induction g with
  | nil =>
    simp [mergeMaps, lookupKV]
    cases h : lookupKV k s <;> simp [orO]
  | cons p rest ih =>
    by_cases hmem : (lookupKV p.1 s).isNone
    · have hnone : lookupKV p.1 s = none := by
        cases h : lookupKV p.1 s
        · rfl
        · rw [h] at hmem; simp at hmem
      by_cases hk : k = p.1
      · subst hk
        simp [mergeMaps, List.filter_cons, hmem, lookupKV, hnone, orO]
      · have : lookupKV k (mergeMaps (p :: rest) s)
            = lookupKV k (mergeMaps rest s) := by
          simp [mergeMaps, List.filter_cons, hmem, lookupKV, hk]
        rw [this, ih]
        simp [lookupKV, hk]
    · have hsome : ∃ w, lookupKV p.1 s = some w := by
        cases h : lookupKV p.1 s
        · rw [h] at hmem; simp at hmem
        · exact ⟨_, rfl⟩
      obtain ⟨w, hw⟩ := hsome
      have : lookupKV k (mergeMaps (p :: rest) s)
          = lookupKV k (mergeMaps rest s) := by
        simp [mergeMaps, List.filter_cons, hmem]
      rw [this, ih]
      by_cases hk : k = p.1
      · subst hk
        simp [lookupKV, hw, orO]
      · simp [lookupKV, hk]

theorem optLookup_mergeOptMap {β : Type}
    (g s : Option (List (String × β))) (k : String) :
    optLookup (mergeOptMap g s) k = orO (optLookup s k) (optLookup g k) := by
  cases g with
  | none =>
    cases s with
    | none => rfl
    | some sm =>
      simp [mergeOptMap, optLookup, lookupKV_mergeMaps, lookupKV, orO_none_right]
  | some gm =>
    cases s with
    | none =>
      simp [mergeOptMap, optLookup, lookupKV_mergeMaps, lookupKV, orO]
    | some sm =>
      simp [mergeOptMap, optLookup, lookupKV_mergeMaps]

theorem mergeOptMap_eq_none_iff {β : Type}
    (g s : Option (List (String × β))) :
    mergeOptMap g s = none ↔ g = none ∧ s = none := by
  cases g <;> cases s <;> simp [mergeOptMap]

theorem mergeOptList_eq_none_iff {β : Type} (g s : Option (List β)) :
    mergeOptList g s = none ↔ g = none ∧ s = none := by
  cases g <;> cases s <;> simp [mergeOptList]

/-! Part B: the runtime bootstrapper shell script. -/

/-- Runtime configuration of one sandbox browser instance, read by the
bootstrap script from its environment (script lines 9 to 18). -/
structure BootCfg where
  cdpPort : Nat
  cdpSourceRange : String
  vncPort : Nat
  noVncPort : Nat
  enableNoVnc : Bool
  headless : Bool
  allowNoSandbox : Bool
  noVncPassword : List Char
  screenRes : String
deriving DecidableEq

/-- Internal (loopback-only) debug port derived from the external one: plus
one, unless there is no room to increment (script lines 40 to 44). -/
def chromeCdpPort (cdpPort : Nat) : Nat :=
  if 65535 ≤ cdpPort then cdpPort - 1 else cdpPort + 1

/-- Bash removal of the shortest suffix matching the glob x[0-9]* — an x
followed by a digit followed by anything; returns the kept prefix when some
suffix matches, none otherwise (script line 47). -/
def stripXSuffix : List Char → Option (List Char)
  | [] => none
  | c :: rest =>
    match stripXSuffix rest with
    | some t => some (c :: t)
    | none =>
      match rest with
      | [] => none
      | d :: _ => if c == 'x' && d.isDigit then some [] else none

/-- Value of WINDOW_SIZE after the suffix removal; an unmatched pattern
leaves the string unchanged, as in bash. -/
def windowSizeBase (s : List Char) : List Char := (stripXSuffix s).getD s

/-- Bash replacement of the first x by a comma (script line 48). -/
def replaceFirstX : List Char → List Char
  | [] => []
  | c :: rest => if c == 'x' then ',' :: rest else c :: replaceFirstX rest

/-- The window-size string handed to the browser, derived from the screen
resolution string (script lines 46 to 48). -/
def windowSize (screenRes : List Char) : List Char :=
  replaceFirstX (windowSizeBase screenRes)

/-- Argument list of the virtual display server (script line 29). -/
def xvfbArgs (screenRes : String) : List String :=
  [":1", "-screen", "0", screenRes, "-ac", "-nolisten", "tcp"]

/-- Argument list of the browser process (script lines 31 to 89): the
optional headless pair, then the fixed flag block, then the optional
sandbox-escape pair. -/
def chromeArgs (headless allowNoSandbox : Bool) (internalPort : Nat)
    (winSize : String) : List String :=
  (if headless then ["--headless=new", "--disable-gpu"] else []) ++
  ["--remote-debugging-address=127.0.0.1",
   "--remote-debugging-port=" ++ toString internalPort,
   "--user-data-dir=/tmp/openclaw-home/.chrome",
   "--no-first-run",
   "--no-default-browser-check",
   "--window-size=" ++ winSize,
   "--font-render-hinting=none",
   "--force-color-profile=srgb",
   "--hide-scrollbars",
   "--disable-dev-shm-usage",
   "--disable-background-networking",
   "--disable-background-timer-throttling",
   "--disable-backgrounding-occluded-windows",
   "--disable-renderer-backgrounding",
   "--disable-client-side-phishing-detection",
   "--disable-default-apps",
   "--disable-domain-reliability",
   "--disable-sync",
   "--disable-breakpad",
   "--disable-crash-reporter",
   "--metrics-recording-only",
   "--mute-audio",
   "--no-pings",
   "--password-store=basic",
   "--disable-popup-blocking",
   "--disable-prompt-on-repost",
   "--disable-ipc-flooding-protection",
   "--disable-features=TranslateUI,HttpsFirstBalancedModeAutoEnable"] ++
  (if allowNoSandbox then ["--no-sandbox", "--disable-setuid-sandbox"] else [])

/-- The socat listen address: the external debug port on all interfaces,
with an allow-list range appended exactly when the caller supplied one
(script lines 100 to 103). -/
def socatListenAddr (cdpPort : Nat) (cdpSourceRange : String) : String :=
  let base := "TCP-LISTEN:" ++ toString cdpPort ++ ",fork,reuseaddr,bind=0.0.0.0"
  if cdpSourceRange = "" then base else base ++ ",range=" ++ cdpSourceRange

/-- The socat forward address: loopback at the internal debug port
(script line 104). -/
def socatForwardAddr (internalPort : Nat) : String :=
  "TCP:127.0.0.1:" ++ toString internalPort

/-- Viewer credential generation: a fresh kernel uuid with its dashes
removed, truncated to the first eight characters (script lines 109 to 111). -/
def generatedNovncPassword (uuid : List Char) : List Char :=
  (uuid.filter (fun c => c != '-')).take 8

/-- Viewer credential resolution: a caller-supplied non-empty password is
used unmodified; otherwise one is generated from a kernel uuid
(script lines 108 to 112). -/
def resolveNovncPassword (supplied uuid : List Char) : List Char :=
  if supplied = [] then generatedNovncPassword uuid else supplied

/-- Maximum number of readiness-poll attempts (script line 93). -/
def cdpPollMaxAttempts : Nat := 50

/-- Number of attempts the readiness poll performs, starting at attempt i
with the given fuel: it stops early on the first success and otherwise
exhausts the fuel (script lines 93 to 98; the fixed 0.1 second sleep
between attempts carries no observable state). -/
def pollFrom (ready : Nat → Bool) : Nat → Nat → Nat
  | _, 0 => 0
  | i, fuel + 1 => if ready i then 1 else pollFrom ready (i + 1) fuel + 1

/-- Attempts performed by the readiness poll of the bootstrap script. -/
def cdpPollAttempts (ready : Nat → Bool) : Nat :=
  pollFrom ready 1 cdpPollMaxAttempts

/-- Where a spawned component binds its TCP listener. -/
inductive BindAddr where
  | loopback
  | anyInterface
deriving DecidableEq

/-- Protocol spoken on a listener. -/
inductive Proto where
  | debug
  | vnc
  | websocket
deriving DecidableEq

/-- One TCP listener opened by a spawned component. The virtual display is
started with -nolisten tcp and opens none (script line 29); the browser
binds the debug protocol to loopback (lines 51 and 52); socat binds the
debug proxy to all interfaces (line 100); x11vnc binds the viewer to
loopback via -localhost (line 117); websockify binds the web bridge to all
interfaces (line 118). -/
structure Listener where
  component : String
  bind : BindAddr
  port : Nat
  proto : Proto
deriving DecidableEq

/-- The TCP listeners of one bootstrapped instance, from the spawn lines of
the script. -/
def spawnedListeners (cfg : BootCfg) : List Listener :=
  [⟨"chromium", .loopback, chromeCdpPort cfg.cdpPort, .debug⟩,
   ⟨"socat", .anyInterface, cfg.cdpPort, .debug⟩] ++
  (if cfg.enableNoVnc && !cfg.headless then
    [⟨"x11vnc", .loopback, cfg.vncPort, .vnc⟩,
     ⟨"websockify", .anyInterface, cfg.noVncPort, .websocket⟩]
   else [])

/-- One step of the bootstrap script, in execution order. -/
inductive BootStep where
  | prepareDirs
  | reconcileStaleState
  | startXvfb (args : List String)
  | startChromium (args : List String)
  | pollReadiness (attempts : Nat)
  | startSocat (listen forward : String)
  | startX11vnc (port : Nat)
  | startWebsockify (port : Nat)
  | waitFirstChild
deriving DecidableEq

/-- The bootstrap script as its ordered step sequence (script lines 20 to
121): directory preparation, stale-lock reconciliation, virtual display,
browser, readiness poll, debug proxy, the optional viewer stack, and the
final wait for the first child exit. The step list does not branch on the
poll outcome. -/
def bootstrapSteps (cfg : BootCfg) (ready : Nat → Bool) : List BootStep :=
  [.prepareDirs,
   .reconcileStaleState,
   .startXvfb (xvfbArgs cfg.screenRes),
   .startChromium (chromeArgs cfg.headless cfg.allowNoSandbox
     (chromeCdpPort cfg.cdpPort) (String.mk (windowSize cfg.screenRes.data))),
   .pollReadiness (cdpPollAttempts ready),
   .startSocat (socatListenAddr cfg.cdpPort cfg.cdpSourceRange)
     (socatForwardAddr (chromeCdpPort cfg.cdpPort))] ++
  (if cfg.enableNoVnc && !cfg.headless then
    [.startX11vnc cfg.vncPort, .startWebsockify cfg.noVncPort]
   else []) ++
  [.waitFirstChild]

/-- Sequencing under set -e: the first non-zero status aborts the script
with that status; a fully-zero sequence ends with status zero
(script line 2). -/
def runSeqE : List Nat → Nat
  | [] => 0
  | s :: rest => if s = 0 then runSeqE rest else s

/-- Exit status of the bootstrap process: the synchronous setup statuses
followed by wait -n, whose status is that of the first supervised child to
exit (script lines 2 and 121); falling off the end of the script exits with
the status of that last command. -/
def bootstrapExitStatus (setupStatuses : List Nat) (firstChildStatus : Nat) : Nat :=
  runSeqE (setupStatuses ++ [firstChildStatus])

/-- Claim C1: for shared scope every resolver returns the global layer
verbatim — each field of the result equals the global layer's field, even
when the global layer is empty, and every field of the specific layer is
ignored. -/
theorem sharedScope_returns_global_wholesale :
    ∀ (gd sd : DockerSandboxConfig) (gb sb : BrowserSandboxConfig)
      (gp sp : PruneConfig),
      resolveSandboxDockerConfig .shared gd sd = gd ∧
      resolveSandboxBrowserConfig .shared gb sb = gb ∧
      resolveSandboxPruneConfig .shared gp sp = gp := by
  intro gd sd gb sb gp sp
  exact ⟨rfl, rfl, rfl⟩

/-- Claim C3: scope resolution is total; an explicit scope always wins over
perSession, perSession true yields session, false yields shared, and absent
perSession yields agent. -/
theorem resolveSandboxScope_total :
    ∀ (ps : Option Bool) (s : SandboxScope),
      resolveSandboxScope ⟨ps, some s⟩ = s ∧
      resolveSandboxScope ⟨some true, none⟩ = .session ∧
      resolveSandboxScope ⟨some false, none⟩ = .shared ∧
      resolveSandboxScope ⟨none, none⟩ = .agent := by
  intro ps s
  exact ⟨rfl, rfl, rfl, rfl⟩

/-- Claim C2: under agent or session scope the docker resolver merges the
map fields env, ulimits and secretMounts as shallow unions in which the
specific layer wins on key collision and the key set is the union of both
key sets; binds is the order-preserving concatenation of global then
specific with no deduplication; and each of these fields is absent (not
an empty collection) exactly when both layers omit it. -/
theorem resolveSandboxDockerConfig_merge :
    ∀ (sc : SandboxScope) (g s : DockerSandboxConfig),
      sc = .agent ∨ sc = .session →
      ((∀ k, optLookup (resolveSandboxDockerConfig sc g s).env k
          = orO (optLookup s.env k) (optLookup g.env k)) ∧
       (∀ k, optLookup (resolveSandboxDockerConfig sc g s).ulimits k
          = orO (optLookup s.ulimits k) (optLookup g.ulimits k)) ∧
       (∀ k, optLookup (resolveSandboxDockerConfig sc g s).secretMounts k
          = orO (optLookup s.secretMounts k) (optLookup g.secretMounts k)) ∧
       (∀ k, (optLookup (resolveSandboxDockerConfig sc g s).env k).isSome
          ↔ ((optLookup g.env k).isSome ∨ (optLookup s.env k).isSome)) ∧
       ((resolveSandboxDockerConfig sc g s).env = none ↔ g.env = none ∧ s.env = none) ∧
       ((resolveSandboxDockerConfig sc g s).ulimits = none
          ↔ g.ulimits = none ∧ s.ulimits = none) ∧
       ((resolveSandboxDockerConfig sc g s).secretMounts = none
          ↔ g.secretMounts = none ∧ s.secretMounts = none) ∧
       ((resolveSandboxDockerConfig sc g s).binds = none
          ↔ g.binds = none ∧ s.binds = none) ∧
       (∀ gb sb, g.binds = some gb → s.binds = some sb →
          (resolveSandboxDockerConfig sc g s).binds = some (gb ++ sb)) ∧
       (∀ gb, g.binds = some gb → s.binds = none →
          (resolveSandboxDockerConfig sc g s).binds = some gb) ∧
       (∀ sb, g.binds = none → s.binds = some sb →
          (resolveSandboxDockerConfig sc g s).binds = some sb)) := by
  intro sc g s hsc
  have hres : resolveSandboxDockerConfig sc g s =
      { image := orO s.image g.image
        env := mergeOptMap g.env s.env
        ulimits := mergeOptMap g.ulimits s.ulimits
        binds := mergeOptList g.binds s.binds
        secretMounts := mergeOptMap g.secretMounts s.secretMounts } := by
    rcases hsc with h | h <;> subst h <;> rfl
  rw [hres]
  refine ⟨fun k => optLookup_mergeOptMap g.env s.env k,
          fun k => optLookup_mergeOptMap g.ulimits s.ulimits k,
          fun k => optLookup_mergeOptMap g.secretMounts s.secretMounts k,
          fun k => ?_, mergeOptMap_eq_none_iff g.env s.env,
          mergeOptMap_eq_none_iff g.ulimits s.ulimits,
          mergeOptMap_eq_none_iff g.secretMounts s.secretMounts,
          mergeOptList_eq_none_iff g.binds s.binds,
          fun gb sb hg hs => ?_, fun gb hg hs => ?_, fun sb hg hs => ?_⟩
  · rw [optLookup_mergeOptMap g.env s.env k]
    cases optLookup s.env k <;> cases optLookup g.env k <;> simp [orO]
  · simp [mergeOptList, hg, hs]
  · simp [mergeOptList, hg, hs]
  · simp [mergeOptList, hg, hs]

/-- Claim C2 witness at a concrete input: the agent-scope merge of the
test suite's env/ulimits scenario. -/
theorem resolveSandboxDockerConfig_merge_witness :
    (SandboxScope.agent = SandboxScope.agent ∨
       SandboxScope.agent = SandboxScope.session) ∧
    (∀ k, optLookup (resolveSandboxDockerConfig .agent
        ⟨none, some [("LANG", "C.UTF-8"), ("FOO", "1")], none, some ["/a:/a"], none⟩
        ⟨none, some [("FOO", "2"), ("BAR", "3")], none, some ["/b:/b"], none⟩).env k
      = orO (optLookup (some [("FOO", "2"), ("BAR", "3")]) k)
            (optLookup (some [("LANG", "C.UTF-8"), ("FOO", "1")]) k)) := by
  refine ⟨Or.inl rfl, ?_⟩
  exact (resolveSandboxDockerConfig_merge .agent
    ⟨none, some [("LANG", "C.UTF-8"), ("FOO", "1")], none, some ["/a:/a"], none⟩
    ⟨none, some [("FOO", "2"), ("BAR", "3")], none, some ["/b:/b"], none⟩
    (Or.inl rfl)).1

/-- Claim C7: under agent or session scope the browser and prune resolvers
resolve every field independently, preferring the specific layer's value
when defined and falling back to the global layer's; a specific prune layer
defining only idleHours overrides only that field. -/
theorem resolveBrowserPruneConfig_per_field :
    ∀ (sc : SandboxScope) (gb sb : BrowserSandboxConfig) (gp sp : PruneConfig),
      sc = .agent ∨ sc = .session →
      ((resolveSandboxBrowserConfig sc gb sb).enabled = orO sb.enabled gb.enabled ∧
       (resolveSandboxBrowserConfig sc gb sb).headless = orO sb.headless gb.headless ∧
       (resolveSandboxBrowserConfig sc gb sb).enableNoVnc
          = orO sb.enableNoVnc gb.enableNoVnc ∧
       (resolveSandboxBrowserConfig sc gb sb).cdpPort = orO sb.cdpPort gb.cdpPort ∧
       (resolveSandboxBrowserConfig sc gb sb).vncPort = orO sb.vncPort gb.vncPort ∧
       (resolveSandboxBrowserConfig sc gb sb).noVncPort
          = orO sb.noVncPort gb.noVncPort ∧
       (resolveSandboxBrowserConfig sc gb sb).cdpSourceRange
          = orO sb.cdpSourceRange gb.cdpSourceRange ∧
       (resolveSandboxBrowserConfig sc gb sb).noVncPassword
          = orO sb.noVncPassword gb.noVncPassword ∧
       (resolveSandboxBrowserConfig sc gb sb).screenResolution
          = orO sb.screenResolution gb.screenResolution ∧
       (resolveSandboxBrowserConfig sc gb sb).allowNoSandboxFlag
          = orO sb.allowNoSandboxFlag gb.allowNoSandboxFlag) ∧
      ((resolveSandboxPruneConfig sc gp sp).idleHours
          = orO sp.idleHours gp.idleHours ∧
       (resolveSandboxPruneConfig sc gp sp).maxAgeDays
          = orO sp.maxAgeDays gp.maxAgeDays) ∧
      (∀ i : Int, resolveSandboxPruneConfig sc gp ⟨some i, none⟩
          = ⟨some i, gp.maxAgeDays⟩) := by
  intro sc gb sb gp sp hsc
  rcases hsc with h | h <;> subst h <;>
    exact ⟨⟨rfl, rfl, rfl, rfl, rfl, rfl, rfl, rfl, rfl, rfl⟩,
           ⟨rfl, rfl⟩,
           fun i => by simp [resolveSandboxPruneConfig, orO, orO_none_right]⟩

/-- Claim C7 witness: the test suite's agent-scope prune override, together
with a partial specific layer overriding only idleHours. -/
theorem resolveBrowserPruneConfig_per_field_witness :
    (SandboxScope.agent = SandboxScope.agent ∨
       SandboxScope.agent = SandboxScope.session) ∧
    resolveSandboxPruneConfig .agent ⟨some 24, some 7⟩ ⟨some 0, none⟩
      = ⟨some 0, some 7⟩ := by
  refine ⟨Or.inl rfl, ?_⟩
  exact (resolveBrowserPruneConfig_per_field .agent
    ⟨none, none, none, none, none, none, none, none, none, none⟩
    ⟨none, none, none, none, none, none, none, none, none, none⟩
    ⟨some 24, some 7⟩ ⟨some 0, none⟩ (Or.inl rfl)).2.2 0

/-- Validation of the spec-modelled docker resolver against the vitest
vectors of the excerpt's test file: env and ulimits merge with the agent
layer winning per key, and binds concatenate. -/
theorem dockerResolver_matches_test_vectors :
    (∀ k, optLookup (resolveSandboxDockerConfig .agent
        ⟨none, some [("LANG", "C.UTF-8"), ("FOO", "1")],
         some [("nofile", .pair 10 20)], none, none⟩
        ⟨none, some [("FOO", "2"), ("BAR", "3")],
         some [("nproc", .single 256)], none, none⟩).env k
      = lookupKV k [("LANG", "C.UTF-8"), ("FOO", "2"), ("BAR", "3")]) ∧
    (∀ k, optLookup (resolveSandboxDockerConfig .agent
        ⟨none, some [("LANG", "C.UTF-8"), ("FOO", "1")],
         some [("nofile", .pair 10 20)], none, none⟩
        ⟨none, some [("FOO", "2"), ("BAR", "3")],
         some [("nproc", .single 256)], none, none⟩).ulimits k
      = lookupKV k [("nofile", UlimitValue.pair 10 20), ("nproc", .single 256)]) ∧
    (resolveSandboxDockerConfig .agent
        ⟨none, none, none, some ["/var/run/docker.sock:/var/run/docker.sock"], none⟩
        ⟨none, none, none, some ["/home/user/source:/source:rw"], none⟩).binds
      = some ["/var/run/docker.sock:/var/run/docker.sock",
              "/home/user/source:/source:rw"] ∧
    (resolveSandboxDockerConfig .agent
        ⟨none, none, none, none, none⟩ ⟨none, none, none, none, none⟩).binds
      = none ∧
    (resolveSandboxDockerConfig .agent
        ⟨none, none, none, none, none⟩ ⟨none, none, none, none, none⟩).secretMounts
      = none := by
  exact ⟨fun k => rfl, fun k => rfl, rfl, rfl, rfl⟩

/-- Claim C5: the internal debug port is the external port plus one below
65535 and minus one at or above it; it always differs from the external
port; 9222 maps to 9223 and 65535 to 65534; and every external port in
1..65535 yields an internal port in 1..65535. -/
theorem chromeCdpPort_allocation :
    (∀ p, p < 65535 → chromeCdpPort p = p + 1) ∧
    (∀ p, 65535 ≤ p → chromeCdpPort p = p - 1) ∧
    (∀ p, chromeCdpPort p ≠ p) ∧
    chromeCdpPort 9222 = 9223 ∧
    chromeCdpPort 65535 = 65534 ∧
    (∀ p, 1 ≤ p → p ≤ 65535 → 1 ≤ chromeCdpPort p ∧ chromeCdpPort p ≤ 65535) := by
  refine ⟨fun p hp => ?_, fun p hp => ?_, fun p => ?_, by decide, by decide,
          fun p h1 h2 => ?_⟩
  · simp [chromeCdpPort, Nat.not_le.mpr hp]
  · simp [chromeCdpPort, hp]
  · unfold chromeCdpPort
    split <;> omega
  · unfold chromeCdpPort
    split <;> omega

/-- Claim C5 witness: the external port 9222 lies in the valid range and so
does its derived internal port. -/
theorem chromeCdpPort_allocation_witness :
    1 ≤ 9222 ∧ 9222 ≤ 65535 ∧
    (1 ≤ chromeCdpPort 9222 ∧ chromeCdpPort 9222 ≤ 65535) :=
  ⟨by decide, by decide,
   chromeCdpPort_allocation.2.2.2.2.2 9222 (by decide) (by decide)⟩

/-- Claim C6: a caller-supplied non-empty viewer password is used unmodified
whatever its length; with no password supplied, the generated credential is
the random token with its separators stripped, truncated to length exactly
eight (the hypothesis that the token holds at least eight non-separator
characters is satisfied by every kernel uuid, which holds 32). -/
theorem resolveNovncPassword_rules :
    (∀ supplied uuid : List Char, supplied ≠ [] →
       resolveNovncPassword supplied uuid = supplied) ∧
    (∀ uuid : List Char,
       8 ≤ (uuid.filter (fun c => c != '-')).length →
       resolveNovncPassword [] uuid = (uuid.filter (fun c => c != '-')).take 8 ∧
       (resolveNovncPassword [] uuid).length = 8) := by
  constructor
  · intro s u hs
    simp [resolveNovncPassword, hs]
  · intro u hu
    refine ⟨rfl, ?_⟩
    have hres : resolveNovncPassword [] u = (u.filter (fun c => c != '-')).take 8 := rfl
    rw [hres, List.length_take]
    omega

/-- Claim C6 witness: a long supplied password passes through unmodified,
and a concrete kernel-format uuid yields a credential of length eight. -/
theorem resolveNovncPassword_rules_witness :
    "longerthan8chars".data ≠ ([] : List Char) ∧
    resolveNovncPassword "longerthan8chars".data "u".data = "longerthan8chars".data ∧
    8 ≤ (("3b9aee2a-8f5c-4f7e-9d2a-1c0b2f3d4e5f".data).filter
          (fun c => c != '-')).length ∧
    (resolveNovncPassword [] "3b9aee2a-8f5c-4f7e-9d2a-1c0b2f3d4e5f".data).length = 8 :=
  ⟨by decide,
   resolveNovncPassword_rules.1 "longerthan8chars".data "u".data (by decide),
   by decide,
   (resolveNovncPassword_rules.2 "3b9aee2a-8f5c-4f7e-9d2a-1c0b2f3d4e5f".data
     (by decide)).2⟩

theorem pollFrom_le (ready : Nat → Bool) : ∀ i fuel, pollFrom ready i fuel ≤ fuel := by
  intro i fuel
  induction fuel generalizing i with
  | zero => simp [pollFrom]
  | succ n ih =>
    simp only [pollFrom]
    split
    · omega
    · have h := ih (i + 1)
      omega

theorem pollFrom_all_false (ready : Nat → Bool) (h : ∀ i, ready i = false) :
    ∀ i fuel, pollFrom ready i fuel = fuel := by
  intro i fuel
  induction fuel generalizing i with
  | zero => simp [pollFrom]
  | succ n ih => simp [pollFrom, h, ih]

/-- Claim C8: the readiness poll performs at most 50 attempts, terminates on
its own schedule for every behaviour of the endpoint (a never-responding
endpoint consumes exactly the full budget of 50), and the debug proxy start
is a step of the bootstrap sequence whatever the poll outcome. -/
theorem readinessPoll_bounded :
    ∀ (cfg : BootCfg) (ready : Nat → Bool),
      cdpPollAttempts ready ≤ 50 ∧
      BootStep.startSocat (socatListenAddr cfg.cdpPort cfg.cdpSourceRange)
          (socatForwardAddr (chromeCdpPort cfg.cdpPort)) ∈ bootstrapSteps cfg ready ∧
      ((∀ i, ready i = false) → cdpPollAttempts ready = 50) := by
  intro cfg ready
  refine ⟨pollFrom_le ready 1 cdpPollMaxAttempts, ?_, fun h => ?_⟩
  · simp [bootstrapSteps]
  · exact pollFrom_all_false ready h 1 cdpPollMaxAttempts

/-- Claim C8 witness: with a never-ready endpoint the poll exhausts exactly
its budget of 50 attempts. -/
theorem readinessPoll_bounded_witness :
    (∀ i, (fun _ : Nat => false) i = false) ∧
    cdpPollAttempts (fun _ => false) = 50 :=
  ⟨fun _ => rfl,
   (readinessPoll_bounded ⟨9222, "", 5900, 6080, true, false, false, [], "1920x1080x24"⟩
     (fun _ => false)).2.2 (fun _ => rfl)⟩

theorem runSeqE_all_zero :
    ∀ (l : List Nat) (s : Nat), (∀ x ∈ l, x = 0) → runSeqE (l ++ [s]) = s := by
  intro l
  induction l with
  | nil =>
    intro s _
    by_cases hs : s = 0 <;> simp [runSeqE, hs]
  | cons x rest ih =>
    intro s h
    have hx : x = 0 := h x (List.mem_cons_self x rest)
    simp [runSeqE, hx]
    exact ih s (fun y hy => h y (List.mem_cons_of_mem x hy))

/-- Claim C9 counterexample: a first supervised child that exits with status
zero makes wait -n succeed, the script falls off its end, and the bootstrap
process exits with status zero — refuting that the exit status is non-zero
in every run in which some child exits. -/
theorem bootstrapExitStatus_zero_counterexample :
    ¬ (∀ firstChildStatus : Nat, bootstrapExitStatus [] firstChildStatus ≠ 0) :=
  fun h => h 0 rfl

/-- Claim C9 amended: the bootstrapper supervises the spawned components and
blocks at its final step until the first of them exits; when the setup
commands all succeeded, its exit status equals that child's exit status, so
the outcome is non-zero exactly when the first-exiting child failed. -/
theorem bootstrapExitStatus_propagates_first_child :
    ∀ (cfg : BootCfg) (ready : Nat → Bool) (setup : List Nat) (s : Nat),
      (∀ x ∈ setup, x = 0) →
      ((bootstrapSteps cfg ready).getLast? = some BootStep.waitFirstChild ∧
       bootstrapExitStatus setup s = s ∧
       (bootstrapExitStatus setup s ≠ 0 ↔ s ≠ 0)) := by
  intro cfg ready setup s h
  have hs : bootstrapExitStatus setup s = s := runSeqE_all_zero setup s h
  refine ⟨?_, hs, by rw [hs]⟩
  cases hv : cfg.enableNoVnc && !cfg.headless <;> simp [bootstrapSteps, hv]

/-- Claim C9 amended witness: with clean setup and a first child exiting
with status 7, the bootstrap process exits with status 7. -/
theorem bootstrapExitStatus_propagates_first_child_witness :
    (∀ x ∈ ([0, 0] : List Nat), x = 0) ∧
    bootstrapExitStatus [0, 0] 7 = 7 :=
  ⟨by decide,
   (bootstrapExitStatus_propagates_first_child
     ⟨9222, "", 5900, 6080, true, false, false, [], "1920x1080x24"⟩
     (fun _ => true) [0, 0] 7 (by decide)).2.1⟩

/-- Claim C4: in every bootstrapped instance the browser argument list
contains the loopback remote-debugging address; every non-loopback listener
speaking the debug protocol is the socat proxy on all interfaces at the
external debug port; the proxy forwards to loopback at the internal debug
port; and its listen address carries a range restriction exactly when the
caller supplied a non-empty cdpSourceRange. -/
theorem debugExposure_loopback_only :
    ∀ (cfg : BootCfg) (w : String),
      "--remote-debugging-address=127.0.0.1" ∈
        chromeArgs cfg.headless cfg.allowNoSandbox (chromeCdpPort cfg.cdpPort) w ∧
      (∀ l ∈ spawnedListeners cfg, l.proto = Proto.debug →
        l.bind ≠ BindAddr.loopback →
        l = ⟨"socat", BindAddr.anyInterface, cfg.cdpPort, Proto.debug⟩) ∧
      socatForwardAddr (chromeCdpPort cfg.cdpPort)
        = "TCP:127.0.0.1:" ++ toString (chromeCdpPort cfg.cdpPort) ∧
      (socatListenAddr cfg.cdpPort cfg.cdpSourceRange
          = "TCP-LISTEN:" ++ toString cfg.cdpPort ++ ",fork,reuseaddr,bind=0.0.0.0"
        ↔ cfg.cdpSourceRange = "") ∧
      (cfg.cdpSourceRange ≠ "" →
        socatListenAddr cfg.cdpPort cfg.cdpSourceRange
          = "TCP-LISTEN:" ++ toString cfg.cdpPort ++ ",fork,reuseaddr,bind=0.0.0.0"
            ++ ",range=" ++ cfg.cdpSourceRange) := by
  intro cfg w
  refine ⟨?_, ?_, rfl, ⟨?_, ?_⟩, ?_⟩
  · cases cfg.headless <;> cases cfg.allowNoSandbox <;> simp [chromeArgs]
  · intro l hl hproto hbind
    cases hv : cfg.enableNoVnc && !cfg.headless <;>
      simp [spawnedListeners, hv] at hl
    · rcases hl with h | h <;> subst h
      · exact absurd rfl hbind
      · rfl
    · rcases hl with h | h | h | h <;> subst h
      · exact absurd rfl hbind
      · rfl
      · exact absurd rfl hbind
      · simp at hproto
  · intro heq
    by_cases hr : cfg.cdpSourceRange = ""
    · exact hr
    · exfalso
      have hlen := congrArg String.length heq
      simp [socatListenAddr, hr, String.length_append] at hlen
      have h7 : (",range=" : String).length = 7 := rfl
      rw [h7] at hlen
      omega
  · intro h
    simp [socatListenAddr, h]
  · intro h
    simp [socatListenAddr, h]

/-- Claim C4 witness: with a caller-supplied source range, the proxy listen
address carries exactly that range restriction. -/
theorem debugExposure_loopback_only_witness :
    ("10.0.0.0/8" : String) ≠ "" ∧
    socatListenAddr 9222 "10.0.0.0/8"
      = "TCP-LISTEN:" ++ toString (9222 : Nat) ++ ",fork,reuseaddr,bind=0.0.0.0"
        ++ ",range=" ++ "10.0.0.0/8" :=
  ⟨by decide,
   (debugExposure_loopback_only
     ⟨9222, "10.0.0.0/8", 5900, 6080, true, false, false, [], "1920x1080x24"⟩
     "1920,1080").2.2.2.2 (by decide)⟩

theorem stripXSuffix_cons (c : Char) (rest : List Char) :
    stripXSuffix (c :: rest) =
      match stripXSuffix rest with
      | some t => some (c :: t)
      | none =>
        match rest with
        | [] => none
        | d :: _ => if c == 'x' && d.isDigit then some [] else none := rfl

theorem stripXSuffix_of_digits :
    ∀ l : List Char, (∀ c ∈ l, c.isDigit) → stripXSuffix l = none := by
  intro l
  induction l with
  | nil => intro _; rfl
  | cons c rest ih =>
    intro h
    have hrest : stripXSuffix rest = none :=
      ih (fun x hx => h x (List.mem_cons_of_mem c hx))
    have hc : c.isDigit := h c (List.mem_cons_self c rest)
    have hcx : (c == 'x') = false := by
      cases hx : c == 'x'
      · rfl
      · exfalso
        have hcx2 : c = 'x' := eq_of_beq hx
        rw [hcx2] at hc
        exact absurd hc (by decide)
    cases rest with
    | nil => rfl
    | cons d rest2 =>
      rw [stripXSuffix_cons, hrest]
      simp [hcx]

theorem stripXSuffix_append_of_some (p : List Char) :
    ∀ rest t : List Char, stripXSuffix rest = some t →
      stripXSuffix (p ++ rest) = some (p ++ t) := by
  induction p with
  | nil => intro rest t h; simpa using h
  | cons c p2 ih =>
    intro rest t h
    have h2 := ih rest t h
    rw [List.cons_append, stripXSuffix_cons, h2, List.cons_append]

theorem stripXSuffix_x_cons_digit (d : Char) (rest : List Char)
    (hd : d.isDigit) (hrest : ∀ c ∈ rest, c.isDigit) :
    stripXSuffix ('x' :: d :: rest) = some [] := by
  have h1 : stripXSuffix (d :: rest) = none := by
    refine stripXSuffix_of_digits (d :: rest) ?_
    intro c hc
    rcases List.mem_cons.mp hc with h | h
    · rw [h]; exact hd
    · exact hrest c h
  rw [stripXSuffix_cons, h1]
  simp [hd]

theorem replaceFirstX_digits_append :
    ∀ (w t : List Char), (∀ c ∈ w, c.isDigit) →
      replaceFirstX (w ++ 'x' :: t) = w ++ ',' :: t := by
  intro w
  induction w with
  | nil => intro t _; simp [replaceFirstX]
  | cons c w2 ih =>
    intro t hw
    have hc : c.isDigit := hw c (List.mem_cons_self c w2)
    have hcx : (c == 'x') = false := by
      cases hx : c == 'x'
      · rfl
      · exfalso
        have hcx2 : c = 'x' := eq_of_beq hx
        rw [hcx2] at hc
        exact absurd hc (by decide)
    simp [replaceFirstX, hcx]
    exact ih t (fun x hx => hw x (List.mem_cons_of_mem c hx))

theorem windowSize_of_resolution :
    ∀ (wl hl dl : List Char),
      (∀ c ∈ wl, c.isDigit) → (∀ c ∈ hl, c.isDigit) → (∀ c ∈ dl, c.isDigit) →
      dl ≠ [] →
      windowSize (wl ++ 'x' :: (hl ++ 'x' :: dl)) = wl ++ ',' :: hl := by
  intro wl hl dl hwd hhd hdd hdn
  cases dl with
  | nil => exact absurd rfl hdn
  | cons d drest =>
    have hd : d.isDigit := hdd d (List.mem_cons_self d drest)
    have hdr : ∀ c ∈ drest, c.isDigit :=
      fun c hc => hdd c (List.mem_cons_of_mem d hc)
    have h1 : stripXSuffix ('x' :: d :: drest) = some [] :=
      stripXSuffix_x_cons_digit d drest hd hdr
    have h2 : stripXSuffix (hl ++ 'x' :: d :: drest) = some hl := by
      have := stripXSuffix_append_of_some hl ('x' :: d :: drest) [] h1
      simpa using this
    have h3 : stripXSuffix ('x' :: (hl ++ 'x' :: d :: drest)) = some ('x' :: hl) := by
      rw [stripXSuffix_cons, h2]
    have h4 : stripXSuffix (wl ++ 'x' :: (hl ++ 'x' :: d :: drest))
        = some (wl ++ 'x' :: hl) :=
      stripXSuffix_append_of_some wl ('x' :: (hl ++ 'x' :: d :: drest))
        ('x' :: hl) h3
    unfold windowSize windowSizeBase
    rw [h4]
    exact replaceFirstX_digits_append wl hl hwd

/-- Claim C10: for every screen-resolution string WxHxD with non-empty
all-numeric components, the virtual display is started with exactly that
resolution string and the browser receives the window-size argument W,H
derived from the same string, so display geometry and browser window
dimensions agree on width and height. -/
theorem screenResolution_window_agreement :
    ∀ (cfg : BootCfg) (ready : Nat → Bool) (wl hl dl : List Char),
      (∀ c ∈ wl, c.isDigit) → (∀ c ∈ hl, c.isDigit) → (∀ c ∈ dl, c.isDigit) →
      wl ≠ [] → hl ≠ [] → dl ≠ [] →
      cfg.screenRes = String.mk (wl ++ 'x' :: (hl ++ 'x' :: dl)) →
      (BootStep.startXvfb
          [":1", "-screen", "0", cfg.screenRes, "-ac", "-nolisten", "tcp"]
        ∈ bootstrapSteps cfg ready ∧
       ∃ args, BootStep.startChromium args ∈ bootstrapSteps cfg ready ∧
         ("--window-size=" ++ String.mk (wl ++ ',' :: hl)) ∈ args) := by
  intro cfg ready wl hl dl hwd hhd hdd _ _ hdn hres
  constructor
  · simp [bootstrapSteps, xvfbArgs]
  · refine ⟨chromeArgs cfg.headless cfg.allowNoSandbox
      (chromeCdpPort cfg.cdpPort) (String.mk (windowSize cfg.screenRes.data)), ?_, ?_⟩
    · simp [bootstrapSteps]
    · have hdata : cfg.screenRes.data = wl ++ 'x' :: (hl ++ 'x' :: dl) := by
        rw [hres]
      rw [hdata, windowSize_of_resolution wl hl dl hwd hhd hdd hdn]
      cases cfg.headless <;> cases cfg.allowNoSandbox <;> simp [chromeArgs]

/-- Claim C10 witness: the default resolution 1920x1080x24 gives the window
size 1920,1080 while the display is started at 1920x1080x24. -/
theorem screenResolution_window_agreement_witness :
    (∀ c ∈ "1920".data, c.isDigit) ∧
    (BootStep.startXvfb
        [":1", "-screen", "0",
         (⟨9222, "", 5900, 6080, true, false, false, [],
            "1920x1080x24"⟩ : BootCfg).screenRes, "-ac", "-nolisten", "tcp"]
      ∈ bootstrapSteps
          ⟨9222, "", 5900, 6080, true, false, false, [], "1920x1080x24"⟩
          (fun _ => true) ∧
     ∃ args, BootStep.startChromium args
         ∈ bootstrapSteps
             ⟨9222, "", 5900, 6080, true, false, false, [], "1920x1080x24"⟩
             (fun _ => true) ∧
       ("--window-size=" ++ String.mk ("1920".data ++ ',' :: "1080".data)) ∈ args) :=
  ⟨by decide,
   screenResolution_window_agreement
     ⟨9222, "", 5900, 6080, true, false, false, [], "1920x1080x24"⟩
     (fun _ => true) "1920".data "1080".data "24".data
     (by decide) (by decide) (by decide) (by decide) (by decide) (by decide)
     (by decide)⟩

end OpenClaw
